import Mathlib

/-!
Shallow embedding of the pixel-format catalog and GPU texture abstraction of
`fyrox-graphics/src/gpu_texture.rs`, together with the default directory
operations of the resource I/O interface in `fyrox-resource/src/io.rs`.

Conventions:
* Rust `usize` values are embedded as `Nat`; every `usize` arithmetic
  operation reduces modulo `2 ^ 64`, the wrapping semantics of 64-bit
  machine arithmetic, via `usize_mul` and `usize_add`.
* Rust enums become Lean inductives with the same constructor names.
* `Option<i32>` becomes `Option Int`.
* Fallible operations return `Except`.
-/

set_option maxRecDepth 100000

/-- Wrapping 64-bit multiplication: the semantics of `usize` `*`. -/
def usize_mul (a b : Nat) : Nat := a * b % 2 ^ 64

/-- Wrapping 64-bit addition: the semantics of `usize` `+`. -/
def usize_add (a b : Nat) : Nat := (a + b) % 2 ^ 64

/-- The pixel format enumeration `PixelKind` of `gpu_texture.rs`, with the
constructors in source order. -/
inductive PixelKind where
  | R32F
  | R32UI
  | R16F
  | D32F
  | D16
  | D24S8
  | RGBA8
  | SRGBA8
  | RGB8
  | SRGB8
  | BGRA8
  | BGR8
  | RG8
  | LA8
  | LA16
  | RG16
  | R8
  | L8
  | L16
  | R8UI
  | R16
  | RGB16
  | RGBA16
  | DXT1RGB
  | DXT1RGBA
  | DXT3RGBA
  | DXT5RGBA
  | RGB32F
  | RGBA32F
  | RGB16F
  | RGBA16F
  | R8RGTC
  | RG8RGTC
  | R11G11B10F
  | RGB10A2
  deriving DecidableEq

/-- The element classification enumeration `PixelElementKind`. -/
inductive PixelElementKind where
  | Float
  | NormalizedUnsignedInteger
  | Integer
  | UnsignedInteger
  deriving DecidableEq

/-- `PixelKind::unpack_alignment`, returning `Option<i32>`. -/
def PixelKind.unpack_alignment : PixelKind → Option Int
  | .RGBA16 | .RGBA16F | .RGB16 | .RGB16F | .RGBA32F | .RGB32F | .RGBA8 | .SRGBA8
  | .BGRA8 | .RG16 | .LA16 | .D24S8 | .D32F | .R32F | .R32UI | .RGB10A2 => some 4
  | .RG8 | .LA8 | .D16 | .R16F | .L16 | .R16 => some 2
  | .R8 | .L8 | .R8UI | .SRGB8 | .RGB8 | .BGR8 | .R11G11B10F => some 1
  | .DXT1RGB | .DXT1RGBA | .DXT3RGBA | .DXT5RGBA | .R8RGTC | .RG8RGTC => none

/-- `PixelKind::is_compressed`. -/
def PixelKind.is_compressed : PixelKind → Bool
  | .DXT1RGB | .DXT1RGBA | .DXT3RGBA | .DXT5RGBA | .R8RGTC | .RG8RGTC => true
  | .RGBA16 | .RGBA16F | .RGB16 | .RGB16F | .RGBA8 | .SRGBA8 | .RGB8 | .SRGB8
  | .BGRA8 | .BGR8 | .RG16 | .R16 | .D24S8 | .D32F | .R32F | .R32UI | .RG8
  | .D16 | .R16F | .R8 | .R8UI | .RGB32F | .RGBA32F | .R11G11B10F | .RGB10A2
  | .L8 | .LA8 | .L16 | .LA16 => false

/-- `PixelKind::element_kind`. -/
def PixelKind.element_kind : PixelKind → PixelElementKind
  | .R32F | .R16F | .RGB32F | .RGBA32F | .RGBA16F | .RGB16F | .D32F
  | .R11G11B10F => .Float
  | .D16 | .D24S8 | .RGBA8 | .SRGBA8 | .RGB8 | .SRGB8 | .BGRA8 | .BGR8 | .RG8
  | .RG16 | .R8 | .R16 | .RGB16 | .RGBA16 | .DXT1RGB | .DXT1RGBA | .DXT3RGBA
  | .DXT5RGBA | .R8RGTC | .RG8RGTC | .RGB10A2 | .LA8 | .L8 | .LA16
  | .L16 => .NormalizedUnsignedInteger
  | .R8UI | .R32UI => .UnsignedInteger

/-- `ceil_div_4`: `(x + 3) / 4` in `usize` arithmetic. -/
def ceil_div_4 (x : Nat) : Nat := usize_add x 3 / 4

/-- `image_3d_size_bytes` of `gpu_texture.rs`. -/
def image_3d_size_bytes (pixel_kind : PixelKind) (width height depth : Nat) : Nat :=
  let pixel_count := usize_mul (usize_mul width height) depth
  match pixel_kind with
  | .RGBA32F => usize_mul 16 pixel_count
  | .RGB32F => usize_mul 12 pixel_count
  | .RGBA16 | .RGBA16F => usize_mul 8 pixel_count
  | .RGB16 | .RGB16F => usize_mul 6 pixel_count
  | .RGBA8 | .SRGBA8 | .BGRA8 | .RG16 | .LA16 | .D24S8 | .D32F | .R32F | .R32UI
  | .R11G11B10F | .RGB10A2 => usize_mul 4 pixel_count
  | .RGB8 | .SRGB8 | .BGR8 => usize_mul 3 pixel_count
  | .RG8 | .LA8 | .R16 | .L16 | .D16 | .R16F => usize_mul 2 pixel_count
  | .R8 | .L8 | .R8UI => pixel_count
  | .DXT1RGB | .DXT1RGBA | .R8RGTC =>
    usize_mul (usize_mul (usize_mul (ceil_div_4 width) (ceil_div_4 height))
      (ceil_div_4 depth)) 8
  | .DXT3RGBA | .DXT5RGBA | .RG8RGTC =>
    usize_mul (usize_mul (usize_mul (ceil_div_4 width) (ceil_div_4 height))
      (ceil_div_4 depth)) 16

/-- `image_2d_size_bytes` of `gpu_texture.rs`. -/
def image_2d_size_bytes (pixel_kind : PixelKind) (width height : Nat) : Nat :=
  let pixel_count := usize_mul width height
  match pixel_kind with
  | .RGBA32F => usize_mul 16 pixel_count
  | .RGB32F => usize_mul 12 pixel_count
  | .RGBA16 | .RGBA16F => usize_mul 8 pixel_count
  | .RGB16 | .RGB16F => usize_mul 6 pixel_count
  | .RGBA8 | .SRGBA8 | .BGRA8 | .RG16 | .LA16 | .D24S8 | .D32F | .R32F | .R32UI
  | .R11G11B10F | .RGB10A2 => usize_mul 4 pixel_count
  | .RGB8 | .SRGB8 | .BGR8 => usize_mul 3 pixel_count
  | .RG8 | .LA8 | .R16 | .L16 | .D16 | .R16F => usize_mul 2 pixel_count
  | .R8 | .L8 | .R8UI => pixel_count
  | .DXT1RGB | .DXT1RGBA | .R8RGTC =>
    usize_mul (usize_mul (ceil_div_4 width) (ceil_div_4 height)) 8
  | .DXT3RGBA | .DXT5RGBA | .RG8RGTC =>
    usize_mul (usize_mul (ceil_div_4 width) (ceil_div_4 height)) 16

/-- `image_1d_size_bytes` of `gpu_texture.rs`. -/
def image_1d_size_bytes (pixel_kind : PixelKind) (length : Nat) : Nat :=
  match pixel_kind with
  | .RGBA32F => usize_mul 16 length
  | .RGB32F => usize_mul 12 length
  | .RGBA16 | .RGBA16F => usize_mul 8 length
  | .RGB16 | .RGB16F => usize_mul 6 length
  | .RGBA8 | .SRGBA8 | .BGRA8 | .RG16 | .LA16 | .D24S8 | .D32F | .R32F | .R32UI
  | .R11G11B10F | .RGB10A2 => usize_mul 4 length
  | .RGB8 | .SRGB8 | .BGR8 => usize_mul 3 length
  | .RG8 | .LA8 | .L16 | .R16 | .D16 | .R16F => usize_mul 2 length
  | .R8 | .L8 | .R8UI => length
  | .DXT1RGB | .DXT1RGBA | .R8RGTC => usize_mul (ceil_div_4 length) 8
  | .DXT3RGBA | .DXT5RGBA | .RG8RGTC => usize_mul (ceil_div_4 length) 16

/-- The block byte size of the compressed formats, as the spec tabulates it:
8 for DXT1RGB, DXT1RGBA, R8RGTC and 16 for DXT3RGBA, DXT5RGBA, RG8RGTC.
Uncompressed formats get the unused value 0. -/
def block_size : PixelKind → Nat
  | .DXT1RGB | .DXT1RGBA | .R8RGTC => 8
  | .DXT3RGBA | .DXT5RGBA | .RG8RGTC => 16
  | .RGBA16 | .RGBA16F | .RGB16 | .RGB16F | .RGBA8 | .SRGBA8 | .RGB8 | .SRGB8
  | .BGRA8 | .BGR8 | .RG16 | .R16 | .D24S8 | .D32F | .R32F | .R32UI | .RG8
  | .D16 | .R16F | .R8 | .R8UI | .RGB32F | .RGBA32F | .R11G11B10F | .RGB10A2
  | .L8 | .LA8 | .L16 | .LA16 => 0

/-- The per-pixel byte size of the uncompressed formats, as the spec's fixed
table has it (mirroring the multipliers of the size functions). Compressed
formats get the unused value 0. -/
def bytes_per_pixel : PixelKind → Nat
  | .RGBA32F => 16
  | .RGB32F => 12
  | .RGBA16 | .RGBA16F => 8
  | .RGB16 | .RGB16F => 6
  | .RGBA8 | .SRGBA8 | .BGRA8 | .RG16 | .LA16 | .D24S8 | .D32F | .R32F | .R32UI
  | .R11G11B10F | .RGB10A2 => 4
  | .RGB8 | .SRGB8 | .BGR8 => 3
  | .RG8 | .LA8 | .R16 | .L16 | .D16 | .R16F => 2
  | .R8 | .L8 | .R8UI => 1
  | .DXT1RGB | .DXT1RGBA | .DXT3RGBA | .DXT5RGBA | .R8RGTC | .RG8RGTC => 0

/-- Two naturals agreeing in `ZMod (2 ^ 64)` agree modulo `2 ^ 64`. -/
theorem mod64_eq {a b : Nat} (h : (a : ZMod (2 ^ 64)) = (b : ZMod (2 ^ 64))) :
    a % 2 ^ 64 = b % 2 ^ 64 :=
  (ZMod.natCast_eq_natCast_iff' a b (2 ^ 64)).mp h

/-- On compressed formats, `image_3d_size_bytes` is the wrapped product of the
per-axis block counts and the block size. -/
theorem image_3d_size_bytes_compressed (fmt : PixelKind)
    (hc : fmt.is_compressed = true) (w h d : Nat) :
    image_3d_size_bytes fmt w h d =
      ceil_div_4 w * ceil_div_4 h * ceil_div_4 d * block_size fmt % 2 ^ 64 := by
  cases fmt <;>
    first
    | exact absurd hc (by decide)
    | (simp only [image_3d_size_bytes, usize_mul, block_size]
       apply mod64_eq
       push_cast [ZMod.natCast_mod]
       ring)

/-- On uncompressed formats, `image_3d_size_bytes` is the wrapped product of
the per-pixel byte count and the pixel count. -/
theorem image_3d_size_bytes_uncompressed (fmt : PixelKind)
    (hc : fmt.is_compressed = false) (w h d : Nat) :
    image_3d_size_bytes fmt w h d = bytes_per_pixel fmt * (w * h * d) % 2 ^ 64 := by
  cases fmt <;>
    first
    | exact absurd hc (by decide)
    | (simp only [image_3d_size_bytes, usize_mul, bytes_per_pixel]
       apply mod64_eq
       push_cast [ZMod.natCast_mod]
       ring)

/-- On compressed formats, `image_2d_size_bytes` is the wrapped product of the
per-axis block counts and the block size. -/
theorem image_2d_size_bytes_compressed (fmt : PixelKind)
    (hc : fmt.is_compressed = true) (w h : Nat) :
    image_2d_size_bytes fmt w h =
      ceil_div_4 w * ceil_div_4 h * block_size fmt % 2 ^ 64 := by
  cases fmt <;>
    first
    | exact absurd hc (by decide)
    | (simp only [image_2d_size_bytes, usize_mul, block_size]
       apply mod64_eq
       push_cast [ZMod.natCast_mod]
       ring)

/-- On uncompressed formats, `image_2d_size_bytes` is the wrapped product of
the per-pixel byte count and the pixel count. -/
theorem image_2d_size_bytes_uncompressed (fmt : PixelKind)
    (hc : fmt.is_compressed = false) (w h : Nat) :
    image_2d_size_bytes fmt w h = bytes_per_pixel fmt * (w * h) % 2 ^ 64 := by
  cases fmt <;>
    first
    | exact absurd hc (by decide)
    | (simp only [image_2d_size_bytes, usize_mul, bytes_per_pixel]
       apply mod64_eq
       push_cast [ZMod.natCast_mod]
       ring)

/-- On compressed formats, `image_1d_size_bytes` is the wrapped product of the
block count and the block size. -/
theorem image_1d_size_bytes_compressed (fmt : PixelKind)
    (hc : fmt.is_compressed = true) (len : Nat) :
    image_1d_size_bytes fmt len = ceil_div_4 len * block_size fmt % 2 ^ 64 := by
  cases fmt <;> first | exact absurd hc (by decide) | rfl

/-- On uncompressed formats, `image_1d_size_bytes` is the wrapped product of
the per-pixel byte count and the length, for a `usize` length. -/
theorem image_1d_size_bytes_uncompressed (fmt : PixelKind)
    (hc : fmt.is_compressed = false) (len : Nat) (hlen : len < 2 ^ 64) :
    image_1d_size_bytes fmt len = bytes_per_pixel fmt * len % 2 ^ 64 := by
  cases fmt <;>
    first
    | exact absurd hc (by decide)
    | rfl
    | (simp only [image_1d_size_bytes, bytes_per_pixel, one_mul]
       exact (Nat.mod_eq_of_lt hlen).symm)

/-- The block size of a compressed format is between 8 and 16 bytes. -/
theorem block_size_bounds (fmt : PixelKind) (hc : fmt.is_compressed = true) :
    8 ≤ block_size fmt ∧ block_size fmt ≤ 16 := by
  cases fmt <;> first | exact absurd hc (by decide) | decide

/-- The per-pixel byte count of an uncompressed format is between 1 and 16. -/
theorem bytes_per_pixel_bounds (fmt : PixelKind) (hc : fmt.is_compressed = false) :
    1 ≤ bytes_per_pixel fmt ∧ bytes_per_pixel fmt ≤ 16 := by
  cases fmt <;> first | exact absurd hc (by decide) | decide

/-- Under-approximation lemma: `ceil_div_4` is plain `(x + 3) / 4` whenever
the addition does not wrap. -/
theorem ceil_div_4_eq (x : Nat) (hx : x + 3 < 2 ^ 64) :
    ceil_div_4 x = (x + 3) / 4 := by
  unfold ceil_div_4 usize_add
  rw [Nat.mod_eq_of_lt hx]

/-- `get_image_of_type` of `gpu_texture.rs`, over the raw byte buffer that
`get_image` returned. The buffer is reinterpreted in place as a vector of
`bytes.len() / size_of::<T>()` elements (`Vec::from_raw_parts` with that
length); the element type `T` is represented by its byte size `size`, and
element `i` by the `size` bytes starting at offset `i * size`. -/
def get_image_of_type (size : Nat) (bytes : List Nat) : List (List Nat) :=
  (List.range (bytes.length / size)).map fun i => (bytes.drop (i * size)).take size

/-- `read_pixels_of_type` of `gpu_texture.rs`, over the raw byte buffer that
`read_pixels` returned; identical reinterpretation to `get_image_of_type`. -/
def read_pixels_of_type (size : Nat) (bytes : List Nat) : List (List Nat) :=
  (List.range (bytes.length / size)).map fun i => (bytes.drop (i * size)).take size

/-- Concatenating the first `n` chunks of `size` bytes recovers the first
`n * size` bytes of the buffer. -/
theorem chunks_join (size : Nat) (bytes : List Nat) :
    ∀ n : Nat,
      ((List.range n).map fun i => (bytes.drop (i * size)).take size).flatten
        = bytes.take (n * size)
  | 0 => by simp
  | n + 1 => by
    rw [List.range_succ, List.map_append, List.flatten_append, chunks_join size bytes n]
    simp [Nat.succ_mul, List.take_add]

/-- The texture shape enumeration `GpuTextureKind`. -/
inductive GpuTextureKind where
  | Line (length : Nat)
  | Rectangle (width height : Nat)
  | Cube (width height : Nat)
  | Volume (width height depth : Nat)
  deriving DecidableEq

/-- Modelled from the spec: the error kind surfaced by `set_data`
(`FrameworkError` is declared outside the excerpt); the spec distinguishes
size/length mismatch, invalid mip count and backend allocation failure. -/
inductive FrameworkError where
  | SizeMismatch
  | InvalidMipCount
  | AllocationFailure
  deriving DecidableEq

/-- Modelled from the spec: the byte size of mip level 0 for a texture shape
and pixel format, per the size functions; a cube has six faces. -/
def texture_size_bytes : GpuTextureKind → PixelKind → Nat
  | .Line len, pk => image_1d_size_bytes pk len
  | .Rectangle w h, pk => image_2d_size_bytes pk w h
  | .Cube w h, pk => 6 * image_2d_size_bytes pk w h
  | .Volume w h d, pk => image_3d_size_bytes pk w h d

/-- Modelled from the spec: the number of addressable mip levels along a
dimension; each level halves the dimension, flooring and clamping at 1. The
first argument is recursion fuel (the dimension itself suffices). -/
def mip_levels_fuel (fuel n : Nat) : Nat :=
  match fuel, n with
  | _, 0 => 1
  | _, 1 => 1
  | 0, _ => 1
  | fuel + 1, n => mip_levels_fuel fuel (n / 2) + 1

/-- Modelled from the spec: the maximum addressable mip levels for a shape,
driven by its largest dimension. -/
def max_mip_count : GpuTextureKind → Nat
  | .Line len => mip_levels_fuel len len
  | .Rectangle w h | .Cube w h => mip_levels_fuel (max w h) (max w h)
  | .Volume w h d =>
    mip_levels_fuel (max w (max h d)) (max w (max h d))

/-- Modelled from the spec: `GpuTexture::set_data` (the trait method is only
declared in the excerpt; backend implementations live outside `src/`). It
fails with a size mismatch when `data` is present and its byte length differs
from the computed size for mip level 0, and with an invalid mip count when
`mip_count` exceeds the maximum addressable levels; backend allocation
failure is not representable in the pure model. -/
def set_data (kind : GpuTextureKind) (pixel_kind : PixelKind) (mip_count : Nat)
    (data : Option (List Nat)) : Except FrameworkError Unit :=
  if mip_count > max_mip_count kind then .error .InvalidMipCount
  else
    match data with
    | some bytes =>
      if bytes.length = texture_size_bytes kind pixel_kind then .ok ()
      else .error .SizeMismatch
    | none => .ok ()

/-- Stand-in for `FileLoadError` of `fyrox_core::io`, which is declared
outside the excerpt; the default directory operations never construct it. -/
inductive FileLoadError where
  | Io
  deriving DecidableEq

/-- The default implementation of `ResourceIo::read_directory` in `io.rs`: an
immediately ready future of `Ok` around an empty iterator. The future is
modelled by its resolved value and the iterator by the list of paths it
yields; paths are opaque strings. -/
def ResourceIo.read_directory (path : String) :
    Except FileLoadError (List String) :=
  .ok []

/-- The default implementation of `ResourceIo::walk_directory` in `io.rs`,
identical to the `read_directory` default. -/
def ResourceIo.walk_directory (path : String) :
    Except FileLoadError (List String) :=
  .ok []

/-- C1: for every `PixelKind`, `unpack_alignment` returns `some a` with
`a ∈ {1, 2, 4}` or `none`; `is_compressed` is true iff the alignment is
`none`; and the compressed formats are exactly DXT1RGB, DXT1RGBA, DXT3RGBA,
DXT5RGBA, R8RGTC, RG8RGTC. -/
theorem C1_alignment_and_compression (k : PixelKind) :
    (k.unpack_alignment = some 1 ∨ k.unpack_alignment = some 2 ∨
      k.unpack_alignment = some 4 ∨ k.unpack_alignment = none) ∧
    (k.is_compressed = true ↔ k.unpack_alignment = none) ∧
    (k.is_compressed = true ↔
      (k = .DXT1RGB ∨ k = .DXT1RGBA ∨ k = .DXT3RGBA ∨ k = .DXT5RGBA ∨
        k = .R8RGTC ∨ k = .RG8RGTC)) := by
  cases k <;> decide

/-- C2: on every block-compressed `PixelKind`, the three size functions
compute the product over the supplied axes of `ceil_div_4` times the block
byte size (in wrapping `usize` arithmetic), where the block size is 8 for
DXT1RGB, DXT1RGBA, R8RGTC and 16 for DXT3RGBA, DXT5RGBA, RG8RGTC. -/
theorem C2_compressed_image_sizes (fmt : PixelKind) (w h d len : Nat)
    (hc : fmt.is_compressed = true) :
    image_1d_size_bytes fmt len = ceil_div_4 len * block_size fmt % 2 ^ 64 ∧
    image_2d_size_bytes fmt w h =
      ceil_div_4 w * ceil_div_4 h * block_size fmt % 2 ^ 64 ∧
    image_3d_size_bytes fmt w h d =
      ceil_div_4 w * ceil_div_4 h * ceil_div_4 d * block_size fmt % 2 ^ 64 ∧
    ((fmt = .DXT1RGB ∨ fmt = .DXT1RGBA ∨ fmt = .R8RGTC) → block_size fmt = 8) ∧
    ((fmt = .DXT3RGBA ∨ fmt = .DXT5RGBA ∨ fmt = .RG8RGTC) →
      block_size fmt = 16) :=
  ⟨image_1d_size_bytes_compressed fmt hc len,
   image_2d_size_bytes_compressed fmt hc w h,
   image_3d_size_bytes_compressed fmt hc w h d,
   by rintro (rfl | rfl | rfl) <;> rfl,
   by rintro (rfl | rfl | rfl) <;> rfl⟩

/-- C2 witness: the 10×10 DXT1RGBA scenario gives 3·3·8 = 72 bytes. -/
theorem C2_compressed_image_sizes_witness :
    PixelKind.is_compressed .DXT1RGBA = true ∧
    image_2d_size_bytes .DXT1RGBA 10 10 = 72 := by
  have hmain := C2_compressed_image_sizes .DXT1RGBA 10 10 1 1 rfl
  exact ⟨rfl, hmain.2.1.trans (by decide)⟩

/-- C3: on every uncompressed `PixelKind`, the three size functions compute
`bytes_per_pixel` times the product of the supplied dimensions (in wrapping
`usize` arithmetic), and the per-pixel table ranges from 16 (RGBA32F) down
to 1 (R8, L8, R8UI). -/
theorem C3_uncompressed_image_sizes (fmt : PixelKind) (w h d len : Nat)
    (hc : fmt.is_compressed = false) (hlen : len < 2 ^ 64) :
    image_3d_size_bytes fmt w h d = bytes_per_pixel fmt * (w * h * d) % 2 ^ 64 ∧
    image_2d_size_bytes fmt w h = bytes_per_pixel fmt * (w * h) % 2 ^ 64 ∧
    image_1d_size_bytes fmt len = bytes_per_pixel fmt * len % 2 ^ 64 ∧
    1 ≤ bytes_per_pixel fmt ∧ bytes_per_pixel fmt ≤ 16 ∧
    bytes_per_pixel PixelKind.RGBA32F = 16 ∧ bytes_per_pixel PixelKind.R8 = 1 ∧
    bytes_per_pixel PixelKind.L8 = 1 ∧ bytes_per_pixel PixelKind.R8UI = 1 :=
  ⟨image_3d_size_bytes_uncompressed fmt hc w h d,
   image_2d_size_bytes_uncompressed fmt hc w h,
   image_1d_size_bytes_uncompressed fmt hc len hlen,
   (bytes_per_pixel_bounds fmt hc).1, (bytes_per_pixel_bounds fmt hc).2,
   rfl, rfl, rfl, rfl⟩

/-- C3 witness: the 2×2×2 RGBA32F scenario gives 16·8 = 128 bytes. -/
theorem C3_uncompressed_image_sizes_witness :
    PixelKind.is_compressed .RGBA32F = false ∧ (7 : Nat) < 2 ^ 64 ∧
    image_3d_size_bytes .RGBA32F 2 2 2 = 128 := by
  have hmain := C3_uncompressed_image_sizes .RGBA32F 2 2 2 7 rfl (by norm_num)
  exact ⟨rfl, by norm_num, hmain.1.trans (by decide)⟩

/-- C4: on every block-compressed format, a zero width yields zero bytes for
any height, and a 4×4 image occupies exactly one block. -/
theorem C4_compressed_zero_and_one_block (fmt : PixelKind) (h : Nat)
    (hc : fmt.is_compressed = true) :
    image_2d_size_bytes fmt 0 h = 0 ∧
    image_2d_size_bytes fmt 4 4 = block_size fmt := by
  constructor
  · rw [image_2d_size_bytes_compressed fmt hc]
    rw [show ceil_div_4 0 = 0 from rfl, Nat.zero_mul, Nat.zero_mul,
      Nat.zero_mod]
  · rw [image_2d_size_bytes_compressed fmt hc]
    rw [show ceil_div_4 4 = 1 from rfl]
    simp only [Nat.one_mul]
    exact Nat.mod_eq_of_lt
      (lt_of_le_of_lt (block_size_bounds fmt hc).2 (by norm_num))

/-- C4 witness: DXT1RGB at width 0 gives 0 bytes and at 4×4 one block. -/
theorem C4_compressed_zero_and_one_block_witness :
    PixelKind.is_compressed .DXT1RGB = true ∧
    image_2d_size_bytes .DXT1RGB 0 7 = 0 ∧
    image_2d_size_bytes .DXT1RGB 4 4 = block_size .DXT1RGB :=
  ⟨rfl, (C4_compressed_zero_and_one_block .DXT1RGB 7 rfl).1,
   (C4_compressed_zero_and_one_block .DXT1RGB 7 rfl).2⟩

/-- C5: for every format, a 3D image of depth 1 has the same byte size as
the 2D image with the same width and height. -/
theorem C5_volume_depth_one_eq_2d (fmt : PixelKind) (w h : Nat) :
    image_3d_size_bytes fmt w h 1 = image_2d_size_bytes fmt w h := by
  cases hcomp : fmt.is_compressed with
  | false =>
    rw [image_3d_size_bytes_uncompressed fmt hcomp,
      image_2d_size_bytes_uncompressed fmt hcomp, Nat.mul_one]
  | true =>
    rw [image_3d_size_bytes_compressed fmt hcomp,
      image_2d_size_bytes_compressed fmt hcomp,
      show ceil_div_4 1 = 1 from rfl, Nat.mul_one]

/-- C6: `element_kind` is `Float` exactly on the floating formats and the
packed float R11G11B10F, `UnsignedInteger` exactly on R8UI and R32UI,
`NormalizedUnsignedInteger` on everything else, and never `Integer`. -/
theorem C6_element_kind_classification (k : PixelKind) :
    (k.element_kind = .Float ↔
      (k = .R32F ∨ k = .R16F ∨ k = .RGB32F ∨ k = .RGBA32F ∨ k = .RGBA16F ∨
        k = .RGB16F ∨ k = .D32F ∨ k = .R11G11B10F)) ∧
    (k.element_kind = .UnsignedInteger ↔ (k = .R8UI ∨ k = .R32UI)) ∧
    (k.element_kind = .NormalizedUnsignedInteger ↔
      (k.element_kind ≠ .Float ∧ k.element_kind ≠ .UnsignedInteger)) ∧
    k.element_kind ≠ .Integer ∧
    (k.element_kind = .Float ∨ k.element_kind = .NormalizedUnsignedInteger ∨
      k.element_kind = .UnsignedInteger) := by
  cases k <;> decide

/-- C7: reinterpreting a byte buffer as elements of byte size `size` yields
exactly `bytes.length / size` elements and silently drops the excess
trailing bytes: the concatenation of the elements is the prefix of length
`bytes.length / size * size`. Both helpers are total, so there is no error
path. -/
theorem C7_reinterpretation_truncates (size : Nat) (bytes : List Nat)
    (hs : 0 < size) :
    (get_image_of_type size bytes).length = bytes.length / size ∧
    (read_pixels_of_type size bytes).length = bytes.length / size ∧
    (get_image_of_type size bytes).flatten =
      bytes.take (bytes.length / size * size) ∧
    (read_pixels_of_type size bytes).flatten =
      bytes.take (bytes.length / size * size) := by
  refine ⟨?_, ?_, ?_, ?_⟩ <;>
    simp [get_image_of_type, read_pixels_of_type, chunks_join]

/-- C7 witness: 10 bytes reinterpreted at element size 4 give 2 elements,
whose bytes are the first 8 of the buffer. -/
theorem C7_reinterpretation_truncates_witness :
    (0 : Nat) < 4 ∧
    (get_image_of_type 4 (List.replicate 10 7)).length =
      (List.replicate (10 : Nat) (7 : Nat)).length / 4 ∧
    (get_image_of_type 4 (List.replicate 10 7)).flatten =
      (List.replicate (10 : Nat) (7 : Nat)).take
        ((List.replicate (10 : Nat) (7 : Nat)).length / 4 * 4) := by
  have hmain := C7_reinterpretation_truncates 4 (List.replicate 10 7)
    (by decide)
  exact ⟨by decide, hmain.1, hmain.2.2.1⟩

/-- C8: `set_data` on a 16×16 RGBA8 rectangle succeeds with a buffer of
exactly `image_2d_size_bytes RGBA8 16 16 = 1024` bytes and fails with a size
mismatch for 1023 or 1025 bytes. -/
theorem C8_set_data_size_check :
    set_data (.Rectangle 16 16) .RGBA8 1 (some (List.replicate 1024 0)) =
      .ok () ∧
    set_data (.Rectangle 16 16) .RGBA8 1 (some (List.replicate 1023 0)) =
      .error .SizeMismatch ∧
    set_data (.Rectangle 16 16) .RGBA8 1 (some (List.replicate 1025 0)) =
      .error .SizeMismatch ∧
    image_2d_size_bytes .RGBA8 16 16 = 1024 :=
  ⟨rfl, rfl, rfl, rfl⟩

/-- C9: the default implementations of `read_directory` and `walk_directory`
return a successful, empty sequence of paths for every path. -/
theorem C9_default_directory_ops (path : String) :
    ResourceIo.read_directory path = .ok [] ∧
    ResourceIo.walk_directory path = .ok [] :=
  ⟨rfl, rfl⟩

/-- C10 fails as stated: in wrapping 64-bit `usize` arithmetic a huge
dimension can make the size wrap to 0 although no dimension is 0; here
`16 · 2 ^ 60 = 2 ^ 64 ≡ 0`. -/
theorem C10_size_zero_iff_counterexample :
    ¬ (image_1d_size_bytes PixelKind.RGBA32F (2 ^ 60) = 0 ↔
        (2 ^ 60 : Nat) = 0) := by
  decide

/-- C10 (amended): whenever the size computation does not overflow 64-bit
`usize` arithmetic — dimensions small enough that `16·(w+3)·(h+3)·(d+3)`
and `16·(len+3)` stay below `2 ^ 64` — each size function returns 0 exactly
when one of its supplied dimensions is 0. -/
theorem C10_size_zero_iff (fmt : PixelKind) (w h d len : Nat)
    (hov : 16 * ((w + 3) * (h + 3) * (d + 3)) < 2 ^ 64)
    (hlen : 16 * (len + 3) < 2 ^ 64) :
    (image_3d_size_bytes fmt w h d = 0 ↔ (w = 0 ∨ h = 0 ∨ d = 0)) ∧
    (image_2d_size_bytes fmt w h = 0 ↔ (w = 0 ∨ h = 0)) ∧
    (image_1d_size_bytes fmt len = 0 ↔ len = 0) := by
  have hprod : (w + 3) * (h + 3) * (d + 3) < 2 ^ 64 :=
    lt_of_le_of_lt (le_mul_of_one_le_left (Nat.zero_le _) (by norm_num)) hov
  have hw : w + 3 < 2 ^ 64 := by
    refine lt_of_le_of_lt ?_ hprod
    calc w + 3 = (w + 3) * 1 * 1 := by ring
    _ ≤ (w + 3) * (h + 3) * (d + 3) :=
      Nat.mul_le_mul (Nat.mul_le_mul (Nat.le_refl _) (by omega)) (by omega)
  have hh : h + 3 < 2 ^ 64 := by
    refine lt_of_le_of_lt ?_ hprod
    calc h + 3 = 1 * (h + 3) * 1 := by ring
    _ ≤ (w + 3) * (h + 3) * (d + 3) :=
      Nat.mul_le_mul (Nat.mul_le_mul (by omega) (Nat.le_refl _)) (by omega)
  have hd : d + 3 < 2 ^ 64 := by
    refine lt_of_le_of_lt ?_ hprod
    calc d + 3 = 1 * 1 * (d + 3) := by ring
    _ ≤ (w + 3) * (h + 3) * (d + 3) :=
      Nat.mul_le_mul (Nat.mul_le_mul (by omega) (by omega)) (Nat.le_refl _)
  have hl3 : len + 3 < 2 ^ 64 :=
    lt_of_le_of_lt (le_mul_of_one_le_left (Nat.zero_le _) (by norm_num)) hlen
  have hl64 : len < 2 ^ 64 := by omega
  cases hcomp : fmt.is_compressed with
  | false =>
    have hbpp := bytes_per_pixel_bounds fmt hcomp
    have k3 : w * h * d ≤ (w + 3) * (h + 3) * (d + 3) :=
      Nat.mul_le_mul (Nat.mul_le_mul (Nat.le_add_right w 3)
        (Nat.le_add_right h 3)) (Nat.le_add_right d 3)
    have k2 : w * h ≤ (w + 3) * (h + 3) * (d + 3) :=
      le_trans (Nat.mul_le_mul (Nat.le_add_right w 3) (Nat.le_add_right h 3))
        (le_mul_of_one_le_right (Nat.zero_le _) (by omega))
    have b3 : bytes_per_pixel fmt * (w * h * d) < 2 ^ 64 :=
      lt_of_le_of_lt (Nat.mul_le_mul hbpp.2 k3) hov
    have b2 : bytes_per_pixel fmt * (w * h) < 2 ^ 64 :=
      lt_of_le_of_lt (Nat.mul_le_mul hbpp.2 k2) hov
    have b1 : bytes_per_pixel fmt * len < 2 ^ 64 :=
      lt_of_le_of_lt (Nat.mul_le_mul hbpp.2 (Nat.le_add_right len 3)) hlen
    refine ⟨?_, ?_, ?_⟩
    · rw [image_3d_size_bytes_uncompressed fmt hcomp, Nat.mod_eq_of_lt b3]
      simp only [Nat.mul_eq_zero]
      omega
    · rw [image_2d_size_bytes_uncompressed fmt hcomp, Nat.mod_eq_of_lt b2]
      simp only [Nat.mul_eq_zero]
      omega
    · rw [image_1d_size_bytes_uncompressed fmt hcomp len hl64,
        Nat.mod_eq_of_lt b1]
      simp only [Nat.mul_eq_zero]
      omega
  | true =>
    have hbs := block_size_bounds fmt hcomp
    have q : ∀ x : Nat, (x + 3) / 4 ≤ x + 3 := fun x => Nat.div_le_self _ _
    have c3 : (w + 3) / 4 * ((h + 3) / 4) * ((d + 3) / 4) * block_size fmt
        < 2 ^ 64 := by
      refine lt_of_le_of_lt ?_ hov
      calc (w + 3) / 4 * ((h + 3) / 4) * ((d + 3) / 4) * block_size fmt
          ≤ (w + 3) * (h + 3) * (d + 3) * 16 :=
            Nat.mul_le_mul (Nat.mul_le_mul (Nat.mul_le_mul (q w) (q h)) (q d))
              hbs.2
      _ = 16 * ((w + 3) * (h + 3) * (d + 3)) := by ring
    have c2 : (w + 3) / 4 * ((h + 3) / 4) * block_size fmt < 2 ^ 64 := by
      refine lt_of_le_of_lt ?_ hov
      calc (w + 3) / 4 * ((h + 3) / 4) * block_size fmt
          ≤ (w + 3) * (h + 3) * 16 :=
            Nat.mul_le_mul (Nat.mul_le_mul (q w) (q h)) hbs.2
      _ = 16 * ((w + 3) * (h + 3)) := by ring
      _ ≤ 16 * ((w + 3) * (h + 3) * (d + 3)) :=
        Nat.mul_le_mul (Nat.le_refl 16)
          (le_mul_of_one_le_right (Nat.zero_le _) (by omega))
    have c1 : (len + 3) / 4 * block_size fmt < 2 ^ 64 := by
      refine lt_of_le_of_lt ?_ hlen
      calc (len + 3) / 4 * block_size fmt
          ≤ (len + 3) * 16 := Nat.mul_le_mul (q len) hbs.2
      _ = 16 * (len + 3) := by ring
    refine ⟨?_, ?_, ?_⟩
    · rw [image_3d_size_bytes_compressed fmt hcomp, ceil_div_4_eq w hw,
        ceil_div_4_eq h hh, ceil_div_4_eq d hd, Nat.mod_eq_of_lt c3]
      simp only [Nat.mul_eq_zero]
      omega
    · rw [image_2d_size_bytes_compressed fmt hcomp, ceil_div_4_eq w hw,
        ceil_div_4_eq h hh, Nat.mod_eq_of_lt c2]
      simp only [Nat.mul_eq_zero]
      omega
    · rw [image_1d_size_bytes_compressed fmt hcomp, ceil_div_4_eq len hl3,
        Nat.mod_eq_of_lt c1]
      simp only [Nat.mul_eq_zero]
      omega

/-- C10 witness: for a small 2×3×0 DXT5RGBA volume and a length-5 line the
zero-size characterization holds concretely. -/
theorem C10_size_zero_iff_witness :
    16 * ((2 + 3) * (3 + 3) * (0 + 3)) < 2 ^ 64 ∧
    16 * (5 + 3) < 2 ^ 64 ∧
    (image_3d_size_bytes .DXT5RGBA 2 3 0 = 0 ↔
      ((2 : Nat) = 0 ∨ (3 : Nat) = 0 ∨ (0 : Nat) = 0)) ∧
    (image_2d_size_bytes .DXT5RGBA 2 3 = 0 ↔
      ((2 : Nat) = 0 ∨ (3 : Nat) = 0)) ∧
    (image_1d_size_bytes .DXT5RGBA 5 = 0 ↔ (5 : Nat) = 0) := by
  have hmain := C10_size_zero_iff .DXT5RGBA 2 3 0 5 (by norm_num) (by norm_num)
  exact ⟨by norm_num, by norm_num, hmain.1, hmain.2.1, hmain.2.2⟩
